import Mathlib

/-!
Verification of the fitness-tracker module `homework.py`.

The module computes distance, mean speed and spent calories for three
workout kinds (running, sports walking, swimming) from raw sensor
readings, and renders them as a fixed-format report string.

Embedding conventions:
* host-language floats are modelled as exact rationals `ℚ`;
* a division whose divisor can be zero at run time is modelled by the
  checked division `fdiv`, returning `none` for the fatal
  `ZeroDivisionError` fault of the host language; everything downstream
  of a possible fault lives in `Option`;
* the open class hierarchy `Training < Running / SportsWalking / Swimming`
  is a closed inductive type `Training` (the source registers exactly these
  three subclasses); attribute overriding (`LEN_STEP`, `get_mean_speed`,
  `get_spent_calories`) becomes a match on the constructor;
* `type(self).__name__` becomes `typeName`;
* string interpolation `MESSAGE.format(...)` with `:.3f` fields becomes
  explicit concatenation with the renderer `fix3` (fixed-point, three
  fractional digits, ties to even as in the host language);
* all functions here are pure, mirroring the side-effect-free source
  (only the excluded demo harness prints).
-/

namespace Homework

/-- Checked division: `none` models the host language fatal
`ZeroDivisionError` fault raised when the divisor is zero. -/
def fdiv (a b : ℚ) : Option ℚ := if b = 0 then none else some (a / b)

/-- Rounding to the nearest integer, ties to even: the rounding mode of the
host language `round` builtin and of its fixed-point float formatting. -/
def roundHalfEven (x : ℚ) : ℤ :=
  if x - ⌊x⌋ < 1/2 then ⌊x⌋
  else if 1/2 < x - ⌊x⌋ then ⌊x⌋ + 1
  else if ⌊x⌋ % 2 = 0 then ⌊x⌋ else ⌊x⌋ + 1

/-- `round(x, 3)` of the host language: round to three decimal places,
ties to even. -/
def round3 (x : ℚ) : ℚ := (roundHalfEven (x * 1000) : ℚ) / 1000

/-- The workout context. The source defines a base class `Training`
(fields `action`, `duration`, `weight`) with subclasses `Running`,
`SportsWalking` (extra field `height`) and `Swimming` (extra fields
`length_pool`, `count_pool`); exactly these three subclasses exist, so the
hierarchy is embedded as a closed inductive type. -/
inductive Training : Type
  | Running (action duration weight : ℚ)
  | SportsWalking (action duration weight height : ℚ)
  | Swimming (action duration weight length_pool count_pool : ℚ)
deriving DecidableEq

/-- Class attribute `Training.LEN_STEP = 0.65`. -/
def Training.LEN_STEP : ℚ := 0.65

/-- Class attribute `Training.M_IN_KM = 1000`. -/
def Training.M_IN_KM : ℚ := 1000

/-- Class attribute `Training.MINUTES_IN_HOUR = 60`. -/
def Training.MINUTES_IN_HOUR : ℚ := 60

/-- Class attribute `Swimming.LEN_STEP = 1.38`, overriding the base value. -/
def Swimming.LEN_STEP : ℚ := 1.38

/-- Class attribute `Running.CALORIES_MEAN_SPEED_MULTIPLIER = 18`. -/
def Running.CALORIES_MEAN_SPEED_MULTIPLIER : ℚ := 18

/-- Class attribute `Running.CALORIES_MEAN_SPEED_SHIFT = 1.79`. -/
def Running.CALORIES_MEAN_SPEED_SHIFT : ℚ := 1.79

/-- Class attribute `SportsWalking.COEFFICIENT_WEIGHT_1 = 0.035`. -/
def SportsWalking.COEFFICIENT_WEIGHT_1 : ℚ := 0.035

/-- Class attribute `SportsWalking.COEFFICIENT_WEIGHT_2 = 0.029`. -/
def SportsWalking.COEFFICIENT_WEIGHT_2 : ℚ := 0.029

/-- Class attribute
`SportsWalking.METER_PER_SECOND_COEFFICIENT = round(Training.M_IN_KM / 3600, 3)`. -/
def SportsWalking.METER_PER_SECOND_COEFFICIENT : ℚ := round3 (Training.M_IN_KM / 3600)

/-- Class attribute `SportsWalking.SPEED_DEGREE_INDICATOR = 2` (an exponent). -/
def SportsWalking.SPEED_DEGREE_INDICATOR : ℕ := 2

/-- Class attribute `SportsWalking.CM_IN_M = 100`. -/
def SportsWalking.CM_IN_M : ℚ := 100

/-- Class attribute `Swimming.CALORIES_MEAN_SPEED_SHIFT = 1.1`. -/
def Swimming.CALORIES_MEAN_SPEED_SHIFT : ℚ := 1.1

/-- Class attribute `Swimming.CALORIES_MEAN_SPEED_MULTIPLIER = 2`. -/
def Swimming.CALORIES_MEAN_SPEED_MULTIPLIER : ℚ := 2

/-- Instance-level lookup of `LEN_STEP`: `Swimming` overrides it, the other
two kinds inherit the base class value. -/
def lenStepOf : Training → ℚ
  | .Swimming _ _ _ _ _ => Swimming.LEN_STEP
  | _ => Training.LEN_STEP

/-- Field `self.action` (common to all kinds). -/
def Training.action : Training → ℚ
  | .Running a _ _ => a
  | .SportsWalking a _ _ _ => a
  | .Swimming a _ _ _ _ => a

/-- Field `self.duration` (common to all kinds). -/
def Training.duration : Training → ℚ
  | .Running _ d _ => d
  | .SportsWalking _ d _ _ => d
  | .Swimming _ d _ _ _ => d

/-- Field `self.weight` (common to all kinds). -/
def Training.weight : Training → ℚ
  | .Running _ _ w => w
  | .SportsWalking _ _ w _ => w
  | .Swimming _ _ w _ _ => w

/-- `Training.get_distance`: `self.action * self.LEN_STEP / self.M_IN_KM`,
with the instance-level `LEN_STEP`. The divisor is the constant 1000, so the
division cannot fault. Not overridden by any subclass. -/
def get_distance (t : Training) : ℚ :=
  t.action * lenStepOf t / Training.M_IN_KM

/-- `get_mean_speed`: the base class computes
`self.get_distance() / self.duration`; `Swimming` overrides it with
`self.length_pool * self.count_pool / self.M_IN_KM / self.duration`.
The division by `duration` can fault. -/
def get_mean_speed (t : Training) : Option ℚ :=
  match t with
  | .Swimming _ d _ lp cp => fdiv (lp * cp / Training.M_IN_KM) d
  | _ => fdiv (get_distance t) t.duration

/-- `get_spent_calories`, one formula per subclass (the base class raises
`NotImplementedError`, unreachable since the type is closed over the three
concrete subclasses). A fault in `get_mean_speed` (zero duration), or in
the walking division by `self.height / self.CM_IN_M` (zero height),
propagates. -/
def get_spent_calories (t : Training) : Option ℚ :=
  match t with
  | .Running _ d w =>
      (get_mean_speed t).map fun v =>
        (Running.CALORIES_MEAN_SPEED_MULTIPLIER * v
          + Running.CALORIES_MEAN_SPEED_SHIFT)
        * w / Training.M_IN_KM * d * Training.MINUTES_IN_HOUR
  | .SportsWalking _ d w h =>
      (get_mean_speed t).bind fun v =>
        (fdiv ((v * SportsWalking.METER_PER_SECOND_COEFFICIENT)
                ^ SportsWalking.SPEED_DEGREE_INDICATOR)
              (h / SportsWalking.CM_IN_M)).map fun q =>
          (SportsWalking.COEFFICIENT_WEIGHT_1 * w
            + q * SportsWalking.COEFFICIENT_WEIGHT_2 * w)
          * d * Training.MINUTES_IN_HOUR
  | .Swimming _ d w _ _ =>
      (get_mean_speed t).map fun v =>
        (v + Swimming.CALORIES_MEAN_SPEED_SHIFT)
        * Swimming.CALORIES_MEAN_SPEED_MULTIPLIER * w * d

/-- `type(self).__name__`: the class name of the concrete subclass. -/
def typeName : Training → String
  | .Running _ _ _ => "Running"
  | .SportsWalking _ _ _ _ => "SportsWalking"
  | .Swimming _ _ _ _ _ => "Swimming"

/-- The `InfoMessage` dataclass. -/
structure InfoMessage : Type where
  training_type : String
  duration : ℚ
  distance : ℚ
  speed : ℚ
  calories : ℚ
deriving DecidableEq

/-- `Training.show_training_info`: builds the `InfoMessage` from the class
name, the duration field and the three computed metrics. A fault in speed
or calories propagates (no layer catches it). -/
def show_training_info (t : Training) : Option InfoMessage :=
  (get_mean_speed t).bind fun v =>
    (get_spent_calories t).map fun c =>
      InfoMessage.mk (typeName t) t.duration (get_distance t) v c

/-- The character for the decimal digit `d % 10`. -/
def digitChar (d : ℕ) : Char := Char.ofNat (48 + d % 10)

/-- The three-character string of the decimal digits of `r % 1000`,
most significant first, left-padded with zeros. -/
def threeFracDigits (r : ℕ) : String :=
  String.mk [digitChar (r / 100 % 10), digitChar (r / 10 % 10), digitChar (r % 10)]

/-- Fixed-point rendering with three fractional digits: the host-language
format specification `:.3f` (round half to even, always exactly three
digits after the decimal point, minus sign for negative input). -/
def fix3 (q : ℚ) : String :=
  (if q < 0 then "-" else "")
    ++ toString ((roundHalfEven (|q| * 1000)).toNat / 1000)
    ++ "." ++ threeFracDigits ((roundHalfEven (|q| * 1000)).toNat % 1000)

/-- `InfoMessage.get_message`: the template `InfoMessage.MESSAGE` with the
five fields substituted, each numeric one through the `:.3f` format
specification. Pure: it returns the string and does not print. -/
def get_message (m : InfoMessage) : String :=
  "Тип тренировки: " ++ m.training_type
    ++ "; Длительность: " ++ fix3 m.duration
    ++ " ч.; Дистанция: " ++ fix3 m.distance
    ++ " км; Ср. скорость: " ++ fix3 m.speed
    ++ " км/ч; Потрачено ккал: " ++ fix3 m.calories ++ "."

/-- The error taxonomy of the dispatcher. The source raises
`KeyError(f'Unknown training type: ...')` for a tag outside the registry —
the spec's `UnknownWorkoutType`, carrying the offending tag — and a
positional-binding `TypeError` when the readings list has the wrong arity
for the selected class. -/
inductive WorkoutError : Type
  | UnknownWorkoutType (tag : String)
  | ArityMismatch (tag : String) (got : ℕ)
deriving DecidableEq

/-- The keys of the registry `TRAINING_TYPES` mapping tags to classes. -/
def TRAINING_TYPES : List String := ["RUN", "WLK", "SWM"]

/-- `TRAINING_TYPES[training_type](*training_data)`: call the registered
class constructor with the readings bound positionally; a wrong arity is
the host language positional-binding fault. -/
def applyTrainingType (tag : String) (data : List ℚ) : Except WorkoutError Training :=
  if tag = "RUN" then
    match data with
    | [a, d, w] => .ok (.Running a d w)
    | _ => .error (.ArityMismatch tag data.length)
  else if tag = "WLK" then
    match data with
    | [a, d, w, h] => .ok (.SportsWalking a d w h)
    | _ => .error (.ArityMismatch tag data.length)
  else if tag = "SWM" then
    match data with
    | [a, d, w, lp, cp] => .ok (.Swimming a d w lp cp)
    | _ => .error (.ArityMismatch tag data.length)
  else .error (.UnknownWorkoutType tag)

/-- `read_package`: the dispatcher. If the tag is not a key of the
registry it raises the unknown-type error carrying the tag, and no
context is constructed; otherwise it instantiates the registered class. -/
def read_package (training_type : String) (training_data : List ℚ) :
    Except WorkoutError Training :=
  if training_type ∈ TRAINING_TYPES then applyTrainingType training_type training_data
  else .error (.UnknownWorkoutType training_type)


/-- Every digit character produced by the renderer is a decimal digit. -/
theorem digitChar_isDigit (d : ℕ) : (digitChar d).isDigit = true := by
  have h : d % 10 < 10 := Nat.mod_lt _ (by decide)
  unfold digitChar
  interval_cases h : d % 10 <;> decide

/-- The fixed-point renderer always ends in a decimal point followed by
exactly three decimal digits. -/
theorem fix3_decomp (q : ℚ) :
    ∃ a b : String, fix3 q = a ++ "." ++ b ∧ b.length = 3 ∧
      b.data.all Char.isDigit = true := by
  refine ⟨(if q < 0 then "-" else "")
      ++ toString ((roundHalfEven (|q| * 1000)).toNat / 1000),
    threeFracDigits ((roundHalfEven (|q| * 1000)).toNat % 1000), ?_, rfl, ?_⟩
  · rw [fix3, String.append_assoc]
  · simp [threeFracDigits, digitChar_isDigit]

/-- C2: the distance in km is the unit count times the kind-specific step
length in km: 0.00065 km (0.65 m) for running and walking, 0.00138 km
(1.38 m) for swimming; equivalently, `get_distance` returns
`action * LEN_STEP / 1000` with `LEN_STEP = 0.65` for `Running` and
`SportsWalking` and `1.38` for `Swimming`. -/
theorem get_distance_spec (a d w h lp cp : ℚ) :
    get_distance (.Running a d w) = a * 0.00065
  ∧ get_distance (.SportsWalking a d w h) = a * 0.00065
  ∧ get_distance (.Swimming a d w lp cp) = a * 0.00138
  ∧ Training.LEN_STEP = 0.65 ∧ Swimming.LEN_STEP = 1.38
  ∧ get_distance (.Running a d w) = a * Training.LEN_STEP / 1000
  ∧ get_distance (.SportsWalking a d w h) = a * Training.LEN_STEP / 1000
  ∧ get_distance (.Swimming a d w lp cp) = a * Swimming.LEN_STEP / 1000 := by
  refine ⟨?_, ?_, ?_, rfl, rfl, rfl, rfl, rfl⟩ <;>
    · rw [get_distance]
      norm_num [lenStepOf, Training.action, Training.M_IN_KM,
        Training.LEN_STEP, Swimming.LEN_STEP, mul_div_assoc]

/-- C3: for positive duration, running and walking mean speed is the
generic distance divided by the duration, while swimming overrides it with
`length_pool * count_pool / 1000 / duration`, independent of the generic
step-distance formula. -/
theorem get_mean_speed_spec (a d w h lp cp : ℚ) (hd : 0 < d) :
    get_mean_speed (.Running a d w) = some (get_distance (.Running a d w) / d)
  ∧ get_mean_speed (.SportsWalking a d w h) =
      some (get_distance (.SportsWalking a d w h) / d)
  ∧ get_mean_speed (.Swimming a d w lp cp) = some (lp * cp / 1000 / d) := by
  have hne : d ≠ 0 := hd.ne'
  refine ⟨?_, ?_, ?_⟩ <;>
    simp [get_mean_speed, fdiv, hne, Training.duration, Training.M_IN_KM]

/-- Witness for C3 at the three literal sample packages. -/
theorem get_mean_speed_check :
    (0 : ℚ) < 1
  ∧ get_mean_speed (.Running 15000 1 75) =
      some (get_distance (.Running 15000 1 75) / 1)
  ∧ get_mean_speed (.Swimming 720 1 80 25 40) = some (25 * 40 / 1000 / 1) :=
  ⟨by decide, (get_mean_speed_spec 15000 1 75 180 25 40 (by decide)).1,
    (get_mean_speed_spec 720 1 80 180 25 40 (by decide)).2.2⟩

/-- Counterexample for C4: on the sample running package `[15000, 1, 75]`
the code computes exactly 797.805 kcal, not approximately 798.975 as the
claim states (the difference is 1.17, far beyond any rounding tolerance). -/
theorem running_sample_calories_counterexample :
    get_spent_calories (.Running 15000 1 75) = some 797.805
  ∧ (797.805 : ℚ) ≠ 798.975
  ∧ |(797.805 : ℚ) - 798.975| > 0.001 := by
  refine ⟨?_, by norm_num,
    by rw [abs_of_neg (by norm_num : (797.805 : ℚ) - 798.975 < 0)]; norm_num⟩
  norm_num [get_spent_calories, get_mean_speed, fdiv, get_distance, lenStepOf,
    Training.action, Training.duration, Training.M_IN_KM, Training.LEN_STEP,
    Training.MINUTES_IN_HOUR, Running.CALORIES_MEAN_SPEED_MULTIPLIER,
    Running.CALORIES_MEAN_SPEED_SHIFT]

/-- C4 (amended): for positive duration the running calories equal
`(18 * mean_speed + 1.79) * weight / 1000 * duration * 60` with the mean
speed `action * 0.65 / 1000 / duration`; on the sample package
`[15000, 1, 75]` this is exactly 797.805 (not 798.975). -/
theorem running_calories_spec (a d w : ℚ) (hd : 0 < d) :
    get_spent_calories (.Running a d w) =
      some ((18 * (a * 0.65 / 1000 / d) + 1.79) * w / 1000 * d * 60)
  ∧ get_spent_calories (.Running 15000 1 75) = some 797.805 := by
  constructor
  · simp [get_spent_calories, get_mean_speed, fdiv, get_distance, lenStepOf,
      Training.action, Training.duration, Training.M_IN_KM, Training.LEN_STEP,
      Training.MINUTES_IN_HOUR, Running.CALORIES_MEAN_SPEED_MULTIPLIER,
      Running.CALORIES_MEAN_SPEED_SHIFT, hd.ne']
  · norm_num [get_spent_calories, get_mean_speed, fdiv, get_distance, lenStepOf,
      Training.action, Training.duration, Training.M_IN_KM, Training.LEN_STEP,
      Training.MINUTES_IN_HOUR, Running.CALORIES_MEAN_SPEED_MULTIPLIER,
      Running.CALORIES_MEAN_SPEED_SHIFT]

/-- Witness for C4 (amended) at the sample running package. -/
theorem running_calories_check :
    (0 : ℚ) < 1
  ∧ get_spent_calories (.Running 15000 1 75) =
      some ((18 * (15000 * 0.65 / 1000 / 1) + 1.79) * 75 / 1000 * 1 * 60) :=
  ⟨by decide, (running_calories_spec 15000 1 75 (by decide)).1⟩

/-- C5: for positive duration and nonzero height the walking calories equal
`(0.035 * weight + ((speed * 0.278) ^ 2 / (height / 100)) * 0.029 * weight)
* duration * 60`, and the factor 0.278 is exactly the host-language
`round(1000 / 3600, 3)`. -/
theorem walking_calories_spec (a d w h : ℚ) (hd : 0 < d) (hh : h ≠ 0) :
    get_spent_calories (.SportsWalking a d w h) =
      some ((0.035 * w
        + ((a * 0.65 / 1000 / d * 0.278) ^ 2 / (h / 100)) * 0.029 * w) * d * 60)
  ∧ SportsWalking.METER_PER_SECOND_COEFFICIENT = round3 (1000 / 3600)
  ∧ round3 (1000 / 3600) = 0.278 := by
  have h278 : round3 (1000 / 3600) = 0.278 := by
    norm_num [round3, roundHalfEven]
  have hmps : SportsWalking.METER_PER_SECOND_COEFFICIENT = 0.278 := by
    rw [SportsWalking.METER_PER_SECOND_COEFFICIENT, Training.M_IN_KM, h278]
  have hh100 : h / 100 ≠ 0 := div_ne_zero hh (by norm_num)
  refine ⟨?_, by rw [hmps, h278], h278⟩
  simp only [get_spent_calories, get_mean_speed, fdiv, get_distance, lenStepOf,
    Training.action, Training.duration, Training.M_IN_KM, Training.LEN_STEP,
    Training.MINUTES_IN_HOUR, SportsWalking.COEFFICIENT_WEIGHT_1,
    SportsWalking.COEFFICIENT_WEIGHT_2, SportsWalking.SPEED_DEGREE_INDICATOR,
    SportsWalking.CM_IN_M, hmps, hd.ne', hh100, if_false, if_neg,
    Option.some_bind, Option.map_some]
  norm_num [hd.ne', hh100]

/-- Witness for C5 at the sample walking package `[9000, 1, 75, 180]`. -/
theorem walking_calories_check :
    (0 : ℚ) < 1 ∧ (180 : ℚ) ≠ 0
  ∧ get_spent_calories (.SportsWalking 9000 1 75 180) =
      some ((0.035 * 75
        + ((9000 * 0.65 / 1000 / 1 * 0.278) ^ 2 / (180 / 100)) * 0.029 * 75)
        * 1 * 60) :=
  ⟨by decide, by decide,
    (walking_calories_spec 9000 1 75 180 (by decide) (by decide)).1⟩

/-- C6: for positive duration the swimming calories equal
`(mean_speed + 1.1) * 2 * weight * duration` with swimming's own mean
speed; on the sample package `[720, 1, 80, 25, 40]` the mean speed is 1
km/h and the calories are exactly 336. -/
theorem swimming_calories_spec (a d w lp cp : ℚ) (hd : 0 < d) :
    get_spent_calories (.Swimming a d w lp cp) =
      some ((lp * cp / 1000 / d + 1.1) * 2 * w * d)
  ∧ get_mean_speed (.Swimming 720 1 80 25 40) = some 1
  ∧ get_spent_calories (.Swimming 720 1 80 25 40) = some 336 := by
  refine ⟨?_, ?_, ?_⟩
  · simp [get_spent_calories, get_mean_speed, fdiv, Training.M_IN_KM,
      Swimming.CALORIES_MEAN_SPEED_SHIFT, Swimming.CALORIES_MEAN_SPEED_MULTIPLIER,
      hd.ne', div_div]
  · norm_num [get_mean_speed, fdiv, Training.M_IN_KM]
  · norm_num [get_spent_calories, get_mean_speed, fdiv, Training.M_IN_KM,
      Swimming.CALORIES_MEAN_SPEED_SHIFT, Swimming.CALORIES_MEAN_SPEED_MULTIPLIER]

/-- Witness for C6 at the sample swimming package. -/
theorem swimming_calories_check :
    (0 : ℚ) < 1
  ∧ get_spent_calories (.Swimming 720 1 80 25 40) =
      some ((25 * 40 / 1000 / 1 + 1.1) * 2 * 80 * 1) :=
  ⟨by decide, (swimming_calories_spec 720 1 80 25 40 (by decide)).1⟩

/-- Counterexample for C7: swimming's calorie computation does not carry the
minutes-conversion factor `duration * 60`. On the sample swimming package
the code yields 336 kcal, while applying the claimed factor `duration * 60`
to swimming's per-kind base `(mean_speed + 1.1) * 2 * weight` would yield
20160. -/
theorem swimming_minutes_factor_counterexample :
    get_spent_calories (.Swimming 720 1 80 25 40) = some 336
  ∧ ((25 * 40 / 1000 / 1 + 1.1) * 2 * 80 : ℚ) * (1 * 60) = 20160
  ∧ (336 : ℚ) ≠ 20160 := by
  refine ⟨?_, by norm_num, by norm_num⟩
  norm_num [get_spent_calories, get_mean_speed, fdiv, Training.M_IN_KM,
    Swimming.CALORIES_MEAN_SPEED_SHIFT, Swimming.CALORIES_MEAN_SPEED_MULTIPLIER]

/-- C7 (amended): the running and walking calorie computations multiply
their base term by `duration * 60`, converting the duration to minutes;
the swimming computation multiplies its base term by `duration` alone,
with no factor of 60. -/
theorem duration_minutes_factor_spec (a d w h lp cp : ℚ)
    (hd : 0 < d) (hh : h ≠ 0) :
    get_spent_calories (.Running a d w) =
      some (((18 * (a * 0.65 / 1000 / d) + 1.79) * w / 1000) * (d * 60))
  ∧ get_spent_calories (.SportsWalking a d w h) =
      some ((0.035 * w
        + ((a * 0.65 / 1000 / d * 0.278) ^ 2 / (h / 100)) * 0.029 * w) * (d * 60))
  ∧ get_spent_calories (.Swimming a d w lp cp) =
      some (((lp * cp / 1000 / d + 1.1) * 2 * w) * d) := by
  refine ⟨?_, ?_, ?_⟩
  · exact (running_calories_spec a d w hd).1.trans (congrArg some (by ring))
  · exact (walking_calories_spec a d w h hd hh).1.trans (congrArg some (by ring))
  · exact (swimming_calories_spec a d w lp cp hd).1.trans (congrArg some (by ring))

/-- Witness for C7 (amended) at the sample packages. -/
theorem duration_minutes_factor_check :
    (0 : ℚ) < 1 ∧ (180 : ℚ) ≠ 0
  ∧ get_spent_calories (.Swimming 720 1 80 25 40) =
      some (((25 * 40 / 1000 / 1 + 1.1) * 2 * 80) * 1) :=
  ⟨by decide, by decide,
    (duration_minutes_factor_spec 720 1 80 180 25 40 (by decide) (by decide)).2.2⟩

/-- C8: the formatter produces exactly the fixed report template, with the
four numeric fields each rendered with exactly three digits after the
decimal point; the formatter is a pure function (it only returns the
string). -/
theorem get_message_format_spec (m : InfoMessage) :
    get_message m =
      "Тип тренировки: " ++ m.training_type
        ++ "; Длительность: " ++ fix3 m.duration
        ++ " ч.; Дистанция: " ++ fix3 m.distance
        ++ " км; Ср. скорость: " ++ fix3 m.speed
        ++ " км/ч; Потрачено ккал: " ++ fix3 m.calories ++ "."
  ∧ (∀ q : ℚ, ∃ a b : String, fix3 q = a ++ "." ++ b ∧ b.length = 3 ∧
      b.data.all Char.isDigit = true) :=
  ⟨rfl, fix3_decomp⟩

/-- C9: a zero duration makes the mean-speed computation of every kind
fault with an unhandled division by zero, a zero height makes the walking
calorie computation fault likewise, and the faults propagate uncaught
through the calorie computation and the report construction. -/
theorem division_fault_spec (a d w h lp cp : ℚ) :
    get_mean_speed (.Running a 0 w) = none
  ∧ get_mean_speed (.SportsWalking a 0 w h) = none
  ∧ get_mean_speed (.Swimming a 0 w lp cp) = none
  ∧ get_spent_calories (.Running a 0 w) = none
  ∧ get_spent_calories (.SportsWalking a 0 w h) = none
  ∧ get_spent_calories (.Swimming a 0 w lp cp) = none
  ∧ get_spent_calories (.SportsWalking a d w 0) = none
  ∧ show_training_info (.Running a 0 w) = none
  ∧ show_training_info (.SportsWalking a d w 0) = none
  ∧ show_training_info (.Swimming a 0 w lp cp) = none := by
  have hwz : get_spent_calories (.SportsWalking a d w 0) = none := by
    by_cases hd : d = 0 <;>
      simp [get_spent_calories, get_mean_speed, fdiv, Training.duration,
        SportsWalking.CM_IN_M, hd]
  refine ⟨?_, ?_, ?_, ?_, ?_, ?_, hwz, ?_, ?_, ?_⟩ <;>
    simp [show_training_info, get_spent_calories, get_mean_speed, fdiv,
      Training.duration, hwz]

/-- C1: the dispatcher rejects every tag outside the registry with the
unknown-type error carrying the offending tag (constructing no context),
and never raises that error for a registered tag. -/
theorem read_package_unknown_tag_spec (tag s : String) (data : List ℚ) :
    (tag ∉ TRAINING_TYPES → read_package tag data = .error (.UnknownWorkoutType tag))
  ∧ (tag ∈ TRAINING_TYPES →
      read_package tag data ≠ .error (.UnknownWorkoutType s)) := by
  constructor
  · intro hmem
    simp [read_package, hmem]
  · intro hmem
    have hm := hmem
    simp only [TRAINING_TYPES, List.mem_cons, List.mem_singleton,
      List.not_mem_nil, or_false] at hm
    simp only [read_package, if_pos hmem]
    rcases hm with hm | hm | hm <;> subst hm <;>
      rcases data with _ | ⟨x1, _ | ⟨x2, _ | ⟨x3, _ | ⟨x4, _ | ⟨x5, _ | ⟨x6, r⟩⟩⟩⟩⟩⟩ <;>
      simp [applyTrainingType]

/-- Witness for C1: the unknown tag XYZ is rejected with the unknown-type
error, while the registered tag RUN is not. -/
theorem read_package_unknown_tag_check :
    read_package "XYZ" [] = .error (.UnknownWorkoutType "XYZ")
  ∧ read_package "RUN" [15000, 1, 75] ≠ .error (.UnknownWorkoutType "RUN") :=
  ⟨(read_package_unknown_tag_spec "XYZ" "XYZ" []).1 (by decide),
    (read_package_unknown_tag_spec "RUN" "RUN" [15000, 1, 75]).2 (by decide)⟩

/-- C10: every context the dispatcher returns carries, as its report label,
the class name of the constructed kind — Running for RUN, SportsWalking
for WLK, Swimming for SWM — never the three-character tag itself, and the
report builder copies exactly that label into the message field. -/
theorem dispatcher_label_spec (tag : String) (data : List ℚ) (t : Training)
    (hok : read_package tag data = .ok t) :
    (tag = "RUN" → typeName t = "Running")
  ∧ (tag = "WLK" → typeName t = "SportsWalking")
  ∧ (tag = "SWM" → typeName t = "Swimming")
  ∧ typeName t ≠ tag
  ∧ ((show_training_info t).map InfoMessage.training_type = some (typeName t)
      ∨ show_training_info t = none) := by
  have hmem : tag ∈ TRAINING_TYPES := by
    by_contra hmem
    simp [read_package, hmem] at hok
  rw [read_package, if_pos hmem] at hok
  have hname : (tag = "RUN" → typeName t = "Running")
      ∧ (tag = "WLK" → typeName t = "SportsWalking")
      ∧ (tag = "SWM" → typeName t = "Swimming") := by
    refine ⟨?_, ?_, ?_⟩ <;> intro htag <;> subst htag <;>
      rcases data with _ | ⟨x1, _ | ⟨x2, _ | ⟨x3, _ | ⟨x4, _ | ⟨x5, _ | ⟨x6, r⟩⟩⟩⟩⟩⟩ <;>
      simp [applyTrainingType] at hok <;>
      (subst hok; rfl)
  refine ⟨hname.1, hname.2.1, hname.2.2, ?_, ?_⟩
  · have hm := hmem
    simp only [TRAINING_TYPES, List.mem_cons, List.mem_singleton,
      List.not_mem_nil, or_false] at hm
    rcases t <;> rcases hm with hm | hm | hm <;> subst hm <;>
      simp [typeName]
  · rw [show_training_info]
    rcases get_mean_speed t with _ | v
    · exact Or.inr rfl
    · rcases get_spent_calories t with _ | c
      · exact Or.inr rfl
      · exact Or.inl rfl

/-- Witness for C10 at the sample running package. -/
theorem dispatcher_label_check :
    typeName (Training.Running 15000 1 75) = "Running"
  ∧ typeName (Training.Running 15000 1 75) ≠ "RUN" := by
  have H := dispatcher_label_spec "RUN" [15000, 1, 75] (.Running 15000 1 75)
    (by simp [read_package, applyTrainingType, TRAINING_TYPES])
  exact ⟨H.1 rfl, H.2.2.2.1⟩

end Homework
